import Mathlib

/-!
Shallow embedding of the data-fetching hook
`src/app/(hooks)/useRoomRateAvailabilityCalendar.ts` of the
rate-availability-calendar repository.

Modelling conventions:
* TypeScript `number` fields are modelled as `Int`; the properties below use
  only equality and order on them, never fractional arithmetic.
* Dates travel on the wire as ISO `YYYY-MM-DD` strings and are modelled as
  `String`; lexicographic order on that format agrees with chronological
  order.
* A TypeScript optional numeric field `x?: number` is modelled as
  `Option Int`; JavaScript truthiness of such a value (`undefined`, `null`
  and `0` are falsy, every other number is truthy) is `numberTruthy`.
* The HTTP wrapper `@/utils/Fetch` and the query-cache layer wrapped by
  `useInfiniteQuery` are code of the repository that is not among the
  provided sources; definitions that stand in for them are modelled from the
  spec and say so in their doc comments.  Everything else is translated
  directly from the hook's source.
-/

/-- Interface IRoomInventory from the source. -/
structure IRoomInventory where
  id : String
  date : String
  available : Int
  status : Bool
  booked : Int
deriving DecidableEq

/-- Interface IRateCalendar from the source. -/
structure IRateCalendar where
  id : String
  date : String
  rate : Int
  min_length_of_stay : Int
  reservation_deadline : Int
deriving DecidableEq

/-- Interface IRatePlanCalendar from the source (IRoomRatePlans plus calendar). -/
structure IRatePlanCalendar where
  id : Int
  name : String
  calendar : List IRateCalendar
deriving DecidableEq

/-- Interface IRoomCategoryCalender from the source (IRoomCategory plus
inventory_calendar and rate_plans). -/
structure IRoomCategoryCalender where
  id : String
  name : String
  occupancy : Int
  inventory_calendar : List IRoomInventory
  rate_plans : List IRatePlanCalendar
deriving DecidableEq

/-- Interface IResponse from the source: the page body, with the optional
numeric cursor field `nextCursor`. -/
structure IResponse where
  room_categories : List IRoomCategoryCalender
  nextCursor : Option Int
deriving DecidableEq

/-- The value resolved by the Fetch wrapper, as consumed by
`getNextPageParam` through `lastpage.data`. -/
structure FetchResponse where
  data : IResponse
deriving DecidableEq

/-- Interface IParams from the source: the hook's input. -/
structure IParams where
  property_id : Int
  start_date : String
  end_date : String
deriving DecidableEq

/-- JavaScript truthiness of an optional number: `undefined`/`null` and `0`
are falsy, every other number is truthy. -/
def numberTruthy : Option Int → Bool
  | none => false
  | some c => c != 0

/-- The hook's getNextPageParam callback.  The source reads
`if (lastpage.data.nextCursor) return lastpage.data.nextCursor; else undefined`;
the else branch evaluates `undefined` without returning it, but a JavaScript
function that falls off its end returns `undefined` anyway, so both branches
of the model are faithful: the truthy branch yields the cursor, every other
path yields `none`. -/
def getNextPageParam (lastpage : FetchResponse) : Option Int :=
  if numberTruthy lastpage.data.nextCursor then lastpage.data.nextCursor
  else none

/-- The hook's initialPageParam configuration value. -/
def initialPageParam : Int := 0

/-- The URL built by fetchData:
`{backend_url}/api/v1/property/{property_id}/rate-calendar/assessment`. -/
def assessmentUrl (backendUrl : String) (property_id : Int) : String :=
  backendUrl ++ "/api/v1/property/" ++ toString property_id ++
    "/rate-calendar/assessment"

/-- The URLSearchParams built by fetchData, in source order.  The cursor
entry is unconditionally `pageParam.toString()` and the fields entry is the
hard-coded literal. -/
def searchParams (params : IParams) (pageParam : Int) : List (String × String) :=
  [("start_date", params.start_date),
   ("end_date", params.end_date),
   ("cursor", toString pageParam),
   ("fields", "id,name,rate")]

/-- An HTTP request as handed to the Fetch wrapper: method, URL and query
parameters. -/
structure HttpRequest where
  method : String
  url : String
  query : List (String × String)
deriving DecidableEq

/-- The single request object fetchData constructs per invocation. -/
def buildRequest (backendUrl : String) (params : IParams) (pageParam : Int) :
    HttpRequest :=
  { method := "GET",
    url := assessmentUrl backendUrl params.property_id,
    query := searchParams params pageParam }

/-- Modelled from the spec: the error taxonomy of the fetch layer
(`NetworkError`, `DecodeError`, `ValidationError`); the repository's
`@/utils/Fetch` utility, which would raise these, is not among the provided
sources. -/
inductive FetchError where
  | network
  | decode
  | validation
deriving DecidableEq

/-- The hook's fetchData: it builds one request and returns the Fetch
wrapper's result unchanged (`return await Fetch(...)`, no catch, no retry).
The transport argument abstracts the Fetch wrapper; the second component
records the requests issued, which is always exactly the one built. -/
def fetchData (transport : HttpRequest → Except FetchError FetchResponse)
    (backendUrl : String) (params : IParams) (pageParam : Int) :
    Except FetchError FetchResponse × List HttpRequest :=
  (transport (buildRequest backendUrl params pageParam),
   [buildRequest backendUrl params pageParam])

/-- Cursor trace of a pagination run driven by the hook's getNextPageParam:
starting from cursor `c`, repeatedly ask the server for the page at the
current cursor and follow `getNextPageParam`, for at most `fuel` steps,
recording each cursor that is followed.  The hook keeps no record of
previously seen cursors, which this definition makes visible: the next
cursor depends only on the last page. -/
def paginateCursors (server : Int → FetchResponse) : Nat → Int → List Int
  | 0, _ => []
  | Nat.succ n, c =>
    match getNextPageParam (server c) with
    | some c2 => c2 :: paginateCursors server n c2
    | none => []

/-- A server that answers every request with the same repeated cursor 7. -/
def repeatedCursorServer : Int → FetchResponse :=
  fun _ => ⟨⟨[], some 7⟩⟩

/-- Association-list lookup used by the cache and in-flight models. -/
def assocFind {α β : Type} [DecidableEq α] : List (α × β) → α → Option β
  | [], _ => none
  | (k, v) :: rest, key => if k = key then some v else assocFind rest key

/-- The hook's staleTime configuration value, in milliseconds: data stays
fresh for 2 minutes. -/
def staleTime : Nat := 2 * 60 * 1000

/-- Modelled from the spec: freshness lookup of the query-cache layer
wrapped by `useInfiniteQuery` (that layer's code is not among the provided
sources).  The cache is keyed on the full tuple of query parameters and
cursor; an entry stores the time it was fetched and stays usable while
younger than `staleTime`. -/
def lookupFresh (now : Nat)
    (cache : List ((IParams × Int) × (Nat × FetchResponse)))
    (key : IParams × Int) : Option FetchResponse :=
  match assocFind cache key with
  | some (t0, v) => if now < t0 + staleTime then some v else none
  | none => none

/-- Modelled from the spec: a fetch through the cache.  A fresh entry is
served from the cache with no network call; otherwise the network result is
used and a call is made.  The boolean records whether a network call
happened. -/
def cachedFetch (now : Nat)
    (cache : List ((IParams × Int) × (Nat × FetchResponse)))
    (key : IParams × Int) (networkResult : FetchResponse) :
    FetchResponse × Bool :=
  match lookupFresh now cache key with
  | some v => (v, false)
  | none => (networkResult, true)

/-- Boolean no-duplicates check on a list of ids. -/
def nodupIds : List String → Bool
  | [] => true
  | x :: xs => !(xs.contains x) && nodupIds xs

/-- The room-category ids of a page body. -/
def categoryIds (r : IResponse) : List String :=
  r.room_categories.map (fun c => c.id)

/-- All dates carried by one room category: its inventory calendar and every
rate-plan calendar. -/
def categoryDates (c : IRoomCategoryCalender) : List String :=
  c.inventory_calendar.map (fun i => i.date) ++
    (c.rate_plans.map (fun p => p.calendar.map (fun e => e.date))).flatten

/-- All dates carried by a page body. -/
def responseDates (r : IResponse) : List String :=
  (r.room_categories.map categoryDates).flatten

/-- Modelled from the spec: the data-model invariants a page must satisfy —
room-category ids unique within the page and every date inside the
requested `[start_date, end_date]` range. -/
def validatePage (start_date end_date : String) (r : IResponse) : Bool :=
  nodupIds (categoryIds r) &&
    (responseDates r).all
      (fun d => decide (start_date ≤ d) && decide (d ≤ end_date))

/-- Modelled from the spec: the full fetchPage contract.  It issues the same
single request fetchData builds, propagates a transport failure unchanged,
and rejects a decoded page that violates the data-model invariants with a
validation error instead of returning it. -/
def fetchPage (transport : HttpRequest → Except FetchError FetchResponse)
    (backendUrl : String) (params : IParams) (pageParam : Int) :
    Except FetchError FetchResponse × List HttpRequest :=
  match transport (buildRequest backendUrl params pageParam) with
  | Except.error e =>
      (Except.error e, [buildRequest backendUrl params pageParam])
  | Except.ok r =>
      if validatePage params.start_date params.end_date r.data then
        (Except.ok r, [buildRequest backendUrl params pageParam])
      else
        (Except.error FetchError.validation,
         [buildRequest backendUrl params pageParam])

/-- How the caller accumulates pages: a successful page is appended, a
failed fetch leaves the accumulated sequence untouched. -/
def mergePages (pages : List FetchResponse) :
    Except FetchError FetchResponse → List FetchResponse
  | Except.ok r => pages ++ [r]
  | Except.error _ => pages

/-- Modelled from the spec: the single-flight in-flight map of the wrapped
query layer — a mapping from request key (full parameter tuple with cursor)
to the shared promise of the in-progress fetch, plus a counter of network
calls actually issued. -/
structure FlightState where
  inFlight : List ((IParams × Int) × Nat)
  nextPromise : Nat
  networkCalls : Nat

/-- Modelled from the spec: starting a request under single-flight
discipline.  A caller whose key is already in flight joins the existing
shared promise and no network call is made; otherwise a fresh promise is
created, recorded in the map, and one network call is issued.  Callers
holding the same promise receive the same eventual result. -/
def startRequest (st : FlightState) (key : IParams × Int) :
    Nat × FlightState :=
  match assocFind st.inFlight key with
  | some p => (p, st)
  | none =>
      (st.nextPromise,
       ⟨(key, st.nextPromise) :: st.inFlight,
        st.nextPromise + 1, st.networkCalls + 1⟩)

/-- Concrete query parameters used by the closed witnesses below. -/
def paramsMarch : IParams := ⟨42, "2025-03-01", "2025-03-31"⟩

/-- The backend base URL named by the repository's README. -/
def backendBase : String := "https://beta.api.bytebeds.com"

/-- A page body with no categories and no next cursor. -/
def emptyPage : FetchResponse := ⟨⟨[], none⟩⟩

/-- A page body with no categories and next cursor 11. -/
def cursorPage11 : FetchResponse := ⟨⟨[], some 11⟩⟩

/-- A room category used to build a duplicate-id page. -/
def dupCategory : IRoomCategoryCalender := ⟨"cat-1", "Deluxe", 2, [], []⟩

/-- A page body whose two room categories share the id cat-1. -/
def dupPage : FetchResponse := ⟨⟨[dupCategory, dupCategory], none⟩⟩

/-- A transport that fails every request with a network error. -/
def failingTransport : HttpRequest → Except FetchError FetchResponse :=
  fun _ => Except.error FetchError.network

/-- Claim C1 (amended): getNextPageParam returns the response's nextCursor
when it is present and nonzero (JavaScript-truthy), and returns undefined
when nextCursor is absent, null, or equal to 0; pagination therefore
terminates when the server stops returning a truthy cursor. -/
theorem getNextPageParam_c1 (p : FetchResponse) :
    (∀ c : Int, p.data.nextCursor = some c → c ≠ 0 →
      getNextPageParam p = some c) ∧
    ((p.data.nextCursor = none ∨ p.data.nextCursor = some 0) →
      getNextPageParam p = none) := by
  constructor
  · intro c hc hne
    simp [getNextPageParam, numberTruthy, hc, hne]
  · rintro (h | h) <;> simp [getNextPageParam, numberTruthy, h]

/-- Claim C1, witness: at a page with nextCursor 11 the callback returns 11,
and at a page with nextCursor absent it returns none. -/
theorem getNextPageParam_c1_witness :
    getNextPageParam cursorPage11 = some 11 ∧
    getNextPageParam emptyPage = none :=
  ⟨(getNextPageParam_c1 cursorPage11).1 11 rfl (by decide),
   (getNextPageParam_c1 emptyPage).2 (Or.inl rfl)⟩

/-- Claim C1, counterexample to the claim as stated: at a page whose
nextCursor is present and equal to 0, getNextPageParam does not return that
cursor — it returns none, even though the cursor is present. -/
theorem getNextPageParam_c1_cex :
    (⟨⟨[], some 0⟩⟩ : FetchResponse).data.nextCursor = some 0 ∧
    getNextPageParam ⟨⟨[], some 0⟩⟩ = none := by
  constructor
  · rfl
  · rfl

/-- Claim C2: the hook keeps no record of previously seen cursors —
getNextPageParam depends only on the last page — so a server that repeats
cursor 7 forever is followed for as many steps as one cares to run
(the trace is 7 repeated `n` times for every fuel `n`), and no validation
error is ever produced: the hook defines no error at all on this path. -/
theorem cursor_loop_c2 (n : Nat) :
    ∀ c : Int, paginateCursors repeatedCursorServer n c = List.replicate n 7 := by
  induction n with
  | zero => intro c; rfl
  | succ m ih =>
      intro c
      have h : getNextPageParam (repeatedCursorServer c) = some 7 := rfl
      simp [paginateCursors, h, ih, List.replicate]

/-- Claim C3 (amended): the initial page request is made with pageParam 0
and the cursor query parameter is always supplied — as the string 0 on the
initial request and as the stringified previous nextCursor on subsequent
requests — rather than being omitted initially. -/
theorem cursor_always_sent_c3 (params : IParams) (pageParam : Int) :
    initialPageParam = 0 ∧
    assocFind (searchParams params pageParam) "cursor" =
      some (toString pageParam) ∧
    assocFind (searchParams params initialPageParam) "cursor" = some "0" := by
  refine ⟨rfl, ?_, ?_⟩
  · simp [searchParams, assocFind]
  · simp [searchParams, assocFind, initialPageParam]
    decide

/-- Claim C3, counterexample to the claim as stated: the query string of the
very first request of a run (pageParam = initialPageParam) already contains
the cursor parameter, with value 0 — the cursor is not absent. -/
theorem initial_cursor_c3_cex :
    assocFind (searchParams paramsMarch initialPageParam) "cursor" =
      some "0" := by
  simp [searchParams, assocFind, initialPageParam, paramsMarch]
  decide

/-- Claim C4: a fresh cache entry (younger than staleTime) for the same
key — the full tuple of query parameters and cursor — is served from the
cache with no network call; once the entry's age reaches staleTime the
cache is bypassed and a network call occurs; and staleTime is 120 seconds
(120000 milliseconds). -/
theorem cache_ttl_c4 (now t0 : Nat)
    (cache : List ((IParams × Int) × (Nat × FetchResponse)))
    (key : IParams × Int) (v r : FetchResponse)
    (h : assocFind cache key = some (t0, v)) :
    (now < t0 + staleTime → cachedFetch now cache key r = (v, false)) ∧
    (t0 + staleTime ≤ now → cachedFetch now cache key r = (r, true)) ∧
    staleTime = 120 * 1000 := by
  refine ⟨?_, ?_, rfl⟩
  · intro hfresh
    simp [cachedFetch, lookupFresh, h, hfresh]
  · intro hstale
    simp [cachedFetch, lookupFresh, h, Nat.not_lt.mpr hstale]

/-- Claim C4, witness: with an entry fetched at time 0, a repeat request at
time 119999 is served from the cache with no network call, and a request at
time 120000 goes to the network. -/
theorem cache_ttl_c4_witness :
    cachedFetch 119999 [((paramsMarch, 0), (0, emptyPage))]
        (paramsMarch, 0) cursorPage11 = (emptyPage, false) ∧
    cachedFetch 120000 [((paramsMarch, 0), (0, emptyPage))]
        (paramsMarch, 0) cursorPage11 = (cursorPage11, true) :=
  ⟨(cache_ttl_c4 119999 0 [((paramsMarch, 0), (0, emptyPage))]
      (paramsMarch, 0) emptyPage cursorPage11 rfl).1
      (by norm_num [staleTime]),
   (cache_ttl_c4 120000 0 [((paramsMarch, 0), (0, emptyPage))]
      (paramsMarch, 0) emptyPage cursorPage11 rfl).2.1
      (by norm_num [staleTime])⟩

/-- Claim C5: every invocation of fetchData issues exactly one request, a
GET to backendUrl/api/v1/property/property_id/rate-calendar/assessment
carrying the query parameters start_date, end_date, cursor and fields built
from the call's parameters. -/
theorem fetch_one_get_c5
    (transport : HttpRequest → Except FetchError FetchResponse)
    (backendUrl : String) (params : IParams) (pageParam : Int) :
    (fetchData transport backendUrl params pageParam).2 =
      [⟨"GET",
        backendUrl ++ "/api/v1/property/" ++ toString params.property_id ++
          "/rate-calendar/assessment",
        [("start_date", params.start_date),
         ("end_date", params.end_date),
         ("cursor", toString pageParam),
         ("fields", "id,name,rate")]⟩] := rfl

/-- Claim C6: when the transport decodes a page that violates the
data-model invariants (validatePage is false, for example on duplicate
room-category ids), fetchPage fails with a validation error, and merging
that failed result leaves the accumulated page sequence unchanged — the bad
page is never merged. -/
theorem validation_error_c6
    (transport : HttpRequest → Except FetchError FetchResponse)
    (backendUrl : String) (params : IParams) (pageParam : Int)
    (r : FetchResponse) (pages : List FetchResponse)
    (hok : transport (buildRequest backendUrl params pageParam) = Except.ok r)
    (hbad : validatePage params.start_date params.end_date r.data = false) :
    (fetchPage transport backendUrl params pageParam).1 =
      Except.error FetchError.validation ∧
    mergePages pages (fetchPage transport backendUrl params pageParam).1 =
      pages := by
  have hstep : fetchPage transport backendUrl params pageParam =
      (Except.error FetchError.validation,
       [buildRequest backendUrl params pageParam]) := by
    simp [fetchPage, hok, hbad]
  rw [hstep]
  exact ⟨rfl, rfl⟩

/-- Claim C6, witness: a server page with two categories both named cat-1 is
rejected with a validation error and is not merged into an empty page
sequence. -/
theorem validation_error_c6_witness :
    (fetchPage (fun _ => Except.ok dupPage) backendBase paramsMarch 0).1 =
      Except.error FetchError.validation ∧
    mergePages []
      (fetchPage (fun _ => Except.ok dupPage) backendBase paramsMarch 0).1 =
      [] :=
  validation_error_c6 (fun _ => Except.ok dupPage) backendBase paramsMarch 0
    dupPage [] rfl rfl

/-- Claim C7: fetchPage issues exactly the one request fetchData builds (no
implicit retries), a transport failure surfaces to the caller unchanged
(never swallowed), and every failure of fetchPage is exactly one of the
three kinds: network, decode or validation. -/
theorem error_propagation_c7
    (transport : HttpRequest → Except FetchError FetchResponse)
    (backendUrl : String) (params : IParams) (pageParam : Int) :
    (fetchPage transport backendUrl params pageParam).2 =
      [buildRequest backendUrl params pageParam] ∧
    (∀ e, transport (buildRequest backendUrl params pageParam) =
        Except.error e →
      (fetchPage transport backendUrl params pageParam).1 =
        Except.error e) ∧
    (∀ e, (fetchPage transport backendUrl params pageParam).1 =
        Except.error e →
      e = FetchError.network ∨ e = FetchError.decode ∨
        e = FetchError.validation) := by
  refine ⟨?_, ?_, ?_⟩
  · cases htr : transport (buildRequest backendUrl params pageParam) with
    | error e => simp [fetchPage, htr]
    | ok r =>
        by_cases hv : validatePage params.start_date params.end_date r.data <;>
          simp [fetchPage, htr, hv]
  · intro e htr
    simp [fetchPage, htr]
  · intro e _
    cases e
    · exact Or.inl rfl
    · exact Or.inr (Or.inl rfl)
    · exact Or.inr (Or.inr rfl)

/-- Claim C7, witness: under a transport that fails with a network error,
fetchPage surfaces exactly that network error and still issued exactly the
one built request. -/
theorem error_propagation_c7_witness :
    (fetchPage failingTransport backendBase paramsMarch 0).1 =
      Except.error FetchError.network ∧
    (fetchPage failingTransport backendBase paramsMarch 0).2 =
      [buildRequest backendBase paramsMarch 0] :=
  ⟨(error_propagation_c7 failingTransport backendBase paramsMarch 0).2.1
      FetchError.network rfl,
   (error_propagation_c7 failingTransport backendBase paramsMarch 0).1⟩

/-- Claim C8: when no fetch for a key is in flight, a first call starts one
network call, and a second call for the identical key arriving while the
first is still in flight joins the same shared promise — so both callers
receive the same result — and the network-call count rises by exactly one
for the two calls together. -/
theorem single_flight_c8 (st : FlightState) (key : IParams × Int)
    (h : assocFind st.inFlight key = none) :
    (startRequest (startRequest st key).2 key).1 =
      (startRequest st key).1 ∧
    (startRequest (startRequest st key).2 key).2.networkCalls =
      st.networkCalls + 1 := by
  simp [startRequest, h, assocFind]

/-- Claim C8, witness: from an empty in-flight map, two back-to-back starts
for the same key share one promise and account for exactly one network
call. -/
theorem single_flight_c8_witness :
    (startRequest (startRequest ⟨[], 0, 0⟩ (paramsMarch, 0)).2
        (paramsMarch, 0)).1 =
      (startRequest ⟨[], 0, 0⟩ (paramsMarch, 0)).1 ∧
    (startRequest (startRequest ⟨[], 0, 0⟩ (paramsMarch, 0)).2
        (paramsMarch, 0)).2.networkCalls = 0 + 1 :=
  single_flight_c8 ⟨[], 0, 0⟩ (paramsMarch, 0) rfl

/-- Claim C9: a page whose nextCursor is present but equal to 0 — falsy in
JavaScript — makes getNextPageParam return undefined, terminating
pagination even though the server supplied a cursor; and whenever
getNextPageParam does continue (returns some cursor), that cursor was
present and nonzero, that is, truthy. -/
theorem getNextPageParam_c9 :
    (∀ p : FetchResponse, p.data.nextCursor = some 0 →
      getNextPageParam p = none) ∧
    (∀ (p : FetchResponse) (c : Int), getNextPageParam p = some c →
      p.data.nextCursor = some c ∧ c ≠ 0) := by
  constructor
  · intro p h
    simp [getNextPageParam, numberTruthy, h]
  · intro p c h
    unfold getNextPageParam at h
    by_cases ht : numberTruthy p.data.nextCursor
    · rw [if_pos ht] at h
      refine ⟨h, ?_⟩
      intro hc
      rw [h, hc] at ht
      simp [numberTruthy] at ht
    · rw [if_neg ht] at h
      exact absurd h (by simp)

/-- Claim C9, witness: at a page with nextCursor present and equal to 0 the
callback returns none. -/
theorem getNextPageParam_c9_witness :
    getNextPageParam ⟨⟨[], some 0⟩⟩ = none :=
  getNextPageParam_c9.1 ⟨⟨[], some 0⟩⟩ rfl

/-- Claim C10: every request carries the fields query parameter with the
fixed value id,name,rate, whatever the hook's inputs are — the projection
is hard-coded. -/
theorem fields_hardcoded_c10 (params : IParams) (pageParam : Int) :
    assocFind (searchParams params pageParam) "fields" =
      some "id,name,rate" := by
  simp [searchParams, assocFind]
